import Mathlib

set_option maxRecDepth 100000

/-!
Shallow embedding of the MCP course-agent server.

The primary model follows `src/index.js`: the stateless `POST /mcp`
dispatcher (JSON-RPC-shaped handshake, static tool catalog, bearer-gated
`tools/call`, and three tool handlers backed by five relations).  A second,
smaller set of definitions (`sse` prefix) follows the course lookup of the
streaming variant in `src/unnamed/part_000`, which resolves the course by
keyword AND modality.

Modelling conventions:
- A backing-store table is a Lean list; a per-table `Option String` fault
  field models a query error returned by the store (`error` in the
  `{data, error}` pair).  `data` is `null` exactly when a fault is present.
- `ilike('col', pattern)` with a `%kw%` pattern is modelled as
  case-insensitive substring containment of `kw` in the column.
- JavaScript string interpolation of a possibly-`undefined` value is
  `jsStr`; JavaScript truthiness of a possibly-`undefined` string is
  `jsTruthy`; `x || d` on strings is `jsOr`.
- The dispatcher returns the HTTP-level outcome together with the number of
  backing-store queries issued on that path (the repository call count).
- `params.arguments` is modelled as a present object whose three possible
  keys may each be absent (`Option String`), matching the argument objects
  quantified over by the catalog schemas.
-/

/-- Whether the character list `pat` is an initial segment of the second list. -/
def prefAt : List Char → List Char → Bool
  | [], _ => true
  | _ :: _, [] => false
  | a :: as, b :: bs => a == b && prefAt as bs

/-- Whether the character list `pat` occurs contiguously in the second list. -/
def occursIn (pat : List Char) : List Char → Bool
  | [] => pat.isEmpty
  | c :: tl => prefAt pat (c :: tl) || occursIn pat tl

/-- The lowercased character list of a string (ASCII case folding, as in
SQL `ILIKE`). -/
def lowerChars (s : String) : List Char :=
  s.toList.map Char.toLower

/-- Case-insensitive substring containment: `ilike(hay, '%pat%')`. -/
def ilikeContains (hay pat : String) : Bool :=
  occursIn (lowerChars pat) (lowerChars hay)

/-- JS template interpolation of a possibly-undefined string value. -/
def jsStr : Option String → String
  | some s => s
  | none => "undefined"

/-- JS truthiness of a possibly-undefined string (`undefined` and `""` are falsy). -/
def jsTruthy : Option String → Bool
  | some s => s ≠ ""
  | none => false

/-- JS `x || d` for a possibly-undefined string `x` and default `d`. -/
def jsOr (x : Option String) (d : String) : String :=
  if jsTruthy x then jsStr x else d

/-- A row of the `courses` relation (union of the columns the two variants read). -/
structure Course where
  id : String
  name : String
  modality : String
  active : Bool
  status : String
  category : String
  duration_label : String
deriving DecidableEq

/-- A row of the `pricing` relation. -/
structure PricingRecord where
  course_id : String
  calendar : String
  modality : String
  list_price : Nat
  promo_price : Nat
  valid_until : String
  reserve_amount : Nat
deriving DecidableEq

/-- A row of the `sessions` relation. -/
structure SessionRecord where
  course_id : String
  calendar : String
  modality : String
  schedule_label : String
  start_date : String
  end_date : String
deriving DecidableEq

/-- A row of the `course_media` relation. -/
structure MediaAsset where
  course_id : String
  kind : String
  url : String
deriving DecidableEq

/-- A row of the `careers_map` relation. -/
structure CareerRec where
  career : String
  recommended_course_id : String
deriving DecidableEq

/-- The backing store: five relations plus one injectable fault per relation. -/
structure DB where
  courses : List Course
  pricing : List PricingRecord
  sessions : List SessionRecord
  media : List MediaAsset
  careers : List CareerRec
  coursesErr : Option String
  pricingErr : Option String
  sessionsErr : Option String
  mediaErr : Option String
  careersErr : Option String
deriving DecidableEq

/-- The constant CURRENT_CALENDAR scoping token (src/index.js line 25). -/
def CURRENT_CALENDAR : String := "2026B"

/-- The `tools/call` argument object: each known key may be absent. -/
structure Args where
  keyword : Option String
  modality : Option String
  career : Option String
deriving DecidableEq

/-- One decoded `POST /mcp` request: JSON-RPC fields plus the auth header. -/
structure McpRequest where
  id : Int
  method : String
  toolName : String
  arguments : Args
  authorization : Option String
deriving DecidableEq

/-- A catalog entry of `tools/list`: name, description, object schema
(declared property names and the `required` list). -/
structure ToolDef where
  name : String
  descr : String
  properties : List String
  required : List String
deriving DecidableEq

/-- JSON-RPC result payloads produced by the dispatcher. -/
inductive RpcResult where
  | initRes (protocolVersion : String) (listChanged : Bool)
      (serverName serverVersion : String)
  | toolsRes (tools : List ToolDef)
  | contentRes (text : String)
deriving DecidableEq

/-- The HTTP-level outcome of one `POST /mcp` request.  `noResponse` marks a
path on which the Express handler returns without ever writing a response. -/
inductive McpResponse where
  | rpcOk (id : Int) (result : RpcResult)
  | rpcErr (id : Int) (code : Int) (msg : String)
  | httpErr (status : Nat) (msg : String)
  | emptyOk
  | noResponse
deriving DecidableEq

/-- The static tool catalog returned by `tools/list` (src/index.js lines 50-79). -/
def toolsCatalog : List ToolDef :=
  [⟨"get_active_courses", "Lista los cursos PAA activos. Úsala para dar info general.",
      [], []⟩,
   ⟨"get_course_details", "Obtiene precio, horarios, fechas e imagen de un curso específico.",
      ["keyword", "modality"], ["keyword"]⟩,
   ⟨"recommend_course", "Recomienda un curso basado en la carrera o universidad.",
      ["career"], ["career"]⟩]

/-- The fixed capability descriptor returned by `initialize` (lines 33-40). -/
def initDescriptor : RpcResult :=
  .initRes ("2024-11-05") false ("unx_mcp_advanced") ("2.0.0")

/-- Secondary lookup of `recommend_course`:
`courses.select('name').eq('id', rid).single()` (line 108); `.single()`
yields data only when exactly one row matches. -/
def singleCourseName (db : DB) (rid : String) : Option String :=
  if db.coursesErr.isSome then none
  else match db.courses.filter (fun c => c.id == rid) with
    | [c] => some c.name
    | _ => none

/-- Recommendation lookup of `recommend_course` in `careers_map` (lines 97-101). -/
def recMatch (db : DB) (careerStr : String) : Option CareerRec :=
  if db.careersErr.isSome then none
  else (db.careers.filter (fun r => ilikeContains r.career careerStr)).head?

/-- Fallback text when no recommendation row matches (line 104). -/
def recFallbackText : String :=
  "No encontré una recomendación específica, pero el curso Integral suele ser la mejor opción general."

/-- Course lookup of `get_course_details` (lines 136-141): case-insensitive
partial match on the name, active courses only, first row.  The `modality`
argument plays no role here. -/
def courseLookup (db : DB) (kw : String) : Option Course :=
  if db.coursesErr.isSome then none
  else (db.courses.filter (fun c => ilikeContains c.name kw && c.active)).head?

/-- Pricing lookup (lines 149-152): by course id and current calendar,
narrowed by modality only when the argument is truthy; first row; a query
fault leaves `data` null, hence no row. -/
def pricingLookup (db : DB) (cid : String) (m : Option String) : Option PricingRecord :=
  if db.pricingErr.isSome then none
  else (db.pricing.filter (fun p => p.course_id == cid && p.calendar == CURRENT_CALENDAR &&
    (!jsTruthy m || ilikeContains p.modality (jsStr m)))).head?

/-- Session lookup (lines 155-158), same shape as the pricing lookup. -/
def sessionLookup (db : DB) (cid : String) (m : Option String) : Option SessionRecord :=
  if db.sessionsErr.isSome then none
  else (db.sessions.filter (fun s => s.course_id == cid && s.calendar == CURRENT_CALENDAR &&
    (!jsTruthy m || ilikeContains s.modality (jsStr m)))).head?

/-- Media lookup (line 161): by course id and kind `image_main`, first row. -/
def mediaLookup (db : DB) (cid : String) : Option MediaAsset :=
  if db.mediaErr.isSome then none
  else (db.media.filter (fun x => x.course_id == cid && x.kind == "image_main")).head?

/-- Resolved image URL (line 162): the found row's URL or the default. -/
def imageUrlOf (db : DB) (cid : String) : String :=
  (mediaLookup db cid).elim ("https://unx.mx") (fun x => x.url)

/-- The multi-line detail text (lines 165-183), with each placeholder
exactly where the template substitutes it. -/
def detailsText (course : Course) (priceInfo : Option PricingRecord)
    (sessionInfo : Option SessionRecord) (imageUrl : String)
    (modality : Option String) : String :=
  "\n🎓 DETALLES: " ++ course.name ++
  "\n-----------------------------\n🗓️ Duración: " ++ course.duration_label ++
  "\n📍 Modalidad: " ++
    (match priceInfo with
      | some p => p.modality
      | none => jsOr modality ("General")) ++
  "\n📅 Fechas: " ++
    (match sessionInfo with
      | some s => s.start_date ++ " al " ++ s.end_date
      | none => "Por confirmar") ++
  "\n\n💰 PRECIOS (Calendario " ++ CURRENT_CALENDAR ++ ")\nPrecio Lista: $" ++
    (match priceInfo with
      | some p => toString p.list_price
      | none => "---") ++
  "\n🔥 Precio Promo: $" ++
    (match priceInfo with
      | some p => toString p.promo_price
      | none => "---") ++
  "\n⚠️ Vigencia Promo: Hasta " ++
    (match priceInfo with
      | some p => p.valid_until
      | none => "agotar existencias") ++
  "\n💸 Apartado: $" ++
    (match priceInfo with
      | some p => toString p.reserve_amount
      | none => "---") ++
  "\n\n⏰ HORARIOS\n" ++
    (match sessionInfo with
      | some s => s.schedule_label
      | none => "Consultar en web") ++
  "\n\n🔗 Link de Compra: https://unx.mx/modalidades-paa/\n🖼️ Ver imagen: " ++
  imageUrl ++ "\n        "

/-- The line list of `get_active_courses` (lines 119-127). -/
def activeCoursesList (db : DB) : String :=
  String.intercalate ("\n")
    ((db.courses.filter (fun c => c.active && c.category == "PAA")).map
      (fun c => "🔹 " ++ c.name ++ " (" ++ c.duration_label ++ ")"))

/-- Outcome of one tool dispatch inside `tools/call`: a result payload, or
the unknown-tool fall-through (line 188). -/
inductive ToolOutcome where
  | res (r : RpcResult)
  | unknownTool
deriving DecidableEq

/-- The body of the `tools/call` branch (lines 92-188): resolve the tool
name, run its handler.  `Except.error` is a value thrown out of the handler
(only `get_active_courses` rethrows a store fault, line 125); the second
component counts backing-store queries issued. -/
def runTool (db : DB) (name : String) (a : Args) : Except String ToolOutcome × Nat :=
  if name = "recommend_course" then
    match recMatch db (jsStr a.career) with
    | none => (.ok (.res (.contentRes recFallbackText)), 1)
    | some row =>
        (.ok (.res (.contentRes ("Para la carrera de " ++ row.career ++
          ", recomendamos el curso: " ++
          ((singleCourseName db row.recommended_course_id).getD
            row.recommended_course_id) ++ "."))), 2)
  else if name = "get_active_courses" then
    match db.coursesErr with
    | some e => (.error e, 1)
    | none => (.ok (.res (.contentRes ("Cursos PAA Disponibles:\n" ++
        activeCoursesList db))), 1)
  else if name = "get_course_details" then
    match courseLookup db (jsStr a.keyword) with
    | none => (.ok (.res (.contentRes ("No encontré ese curso activo."))), 1)
    | some course =>
        (.ok (.res (.contentRes (detailsText course
          (pricingLookup db course.id a.modality)
          (sessionLookup db course.id a.modality)
          (imageUrlOf db course.id)
          a.modality))), 4)
  else (.ok .unknownTool, 0)

/-- Envelope shaping of an authorized `tools/call`: a handler result becomes
a JSON-RPC result, the unknown-tool fall-through becomes HTTP 404 (line 188),
and a thrown value is caught at the dispatcher boundary (lines 190-193) and
rewrapped as JSON-RPC error -32603 with the thrown message. -/
def dispatchTool (db : DB) (req : McpRequest) : McpResponse × Nat :=
  match runTool db req.toolName req.arguments with
  | (.ok (.res r), n) => (.rpcOk req.id r, n)
  | (.ok .unknownTool, n) => (.httpErr 404 ("Method not found"), n)
  | (.error e, n) => (.rpcErr req.id (-32603) e, n)

/-- The `POST /mcp` dispatcher of src/index.js (lines 27-194).  Method
routing, the bearer check scoped to `tools/call` (lines 87-90, before any
store access), and the silent fall-through for unrecognized methods. -/
def handleMcp (db : DB) (secret : Option String) (req : McpRequest) :
    McpResponse × Nat :=
  if req.method = "initialize" then (.rpcOk req.id initDescriptor, 0)
  else if req.method = "notifications/initialized" then (.emptyOk, 0)
  else if req.method = "tools/list" then
    (.rpcOk req.id (.toolsRes toolsCatalog), 0)
  else if req.method = "tools/call" then
    if req.authorization.getD "" ≠ "Bearer " ++ jsStr secret then
      (.httpErr 401 ("Unauthorized"), 0)
    else dispatchTool db req
  else (.noResponse, 0)

/-- Course lookup of the streaming variant's `get_course_details`
(src/unnamed/part_000 lines 70-76): keyword AND modality partial matches,
`status = 'active'`, first row. -/
def sseCourseLookup (db : DB) (keyword modality : String) : Option Course :=
  if db.coursesErr.isSome then none
  else (db.courses.filter (fun c => ilikeContains c.name keyword &&
    ilikeContains c.modality modality && c.status == "active")).head?

/-- An argument object accepted by a catalog entry's declared JSON schema:
every `required` property is present (extra properties are permitted by an
object schema that does not restrict them). -/
def schemaAccepts (t : ToolDef) (a : Args) : Bool :=
  t.required.all (fun k =>
    (if k = "keyword" then a.keyword.isSome
     else if k = "modality" then a.modality.isSome
     else if k = "career" then a.career.isSome
     else false))

/-! ### Concrete fixtures used by witnesses and counterexamples -/

/-- An empty, fault-free backing store. -/
def dbEmpty : DB := ⟨[], [], [], [], [], none, none, none, none, none⟩

/-- An argument object with no keys present. -/
def noArgs : Args := ⟨none, none, none⟩

/-- An active in-person PAA course. -/
def courseIntegral : Course :=
  ⟨("c1"), ("Curso Integral PAA"), ("Presencial"), true, ("active"), ("PAA"), ("12 semanas")⟩

/-- An active remote course with the same searchable name stem. -/
def courseZoom : Course :=
  ⟨("c2"), ("Curso Integral PAA"), ("Zoom"), true, ("active"), ("PAA"), ("10 semanas")⟩

/-- A current-calendar pricing row for `courseIntegral`. -/
def pricingIntegral : PricingRecord :=
  ⟨("c1"), ("2026B"), ("Presencial"), 2000, 1500, ("2026-01-31"), 500⟩

/-- A current-calendar session row for `courseIntegral`. -/
def sessionIntegral : SessionRecord :=
  ⟨("c1"), ("2026B"), ("Presencial"), ("L-V 16:00-18:00"), ("2026-02-02"), ("2026-05-29")⟩

/-- A main-image row for `courseIntegral`. -/
def mediaIntegral : MediaAsset :=
  ⟨("c1"), ("image_main"), ("https://unx.mx/img/integral.png")⟩

/-- A career-recommendation row pointing at `courseIntegral`. -/
def careerMed : CareerRec := ⟨("Medicina"), ("c1")⟩

/-- A store holding one course with its pricing row only. -/
def dbPriceOnly : DB :=
  ⟨[courseIntegral], [pricingIntegral], [], [], [], none, none, none, none, none⟩

/-- A store holding one active course and nothing else: no pricing, session
or media rows for it. -/
def dbCourseOnly : DB :=
  ⟨[courseIntegral], [], [], [], [], none, none, none, none, none⟩

/-- A store whose only active course is delivered over Zoom. -/
def dbZoomOnly : DB :=
  ⟨[courseZoom], [], [], [], [], none, none, none, none, none⟩

/-- A store holding one career-recommendation row but no `courses` row for
the recommended identifier. -/
def dbCareerOnly : DB :=
  ⟨[], [], [], [], [careerMed], none, none, none, none, none⟩

/-- A store whose `careers_map` queries fail with a connectivity error. -/
def dbCareersFault : DB :=
  ⟨[], [], [], [], [], none, none, none, none, some ("connection reset")⟩

/-- A store whose `courses` queries fail with a connectivity error. -/
def dbCoursesFault : DB :=
  ⟨[], [], [], [], [], some ("connection reset"), none, none, none, none⟩

/-- Taking `head?` of a filtered list yields the first element satisfying the
predicate: it satisfies the predicate and everything before it fails it. -/
theorem head?_filter_decomp {α : Type} (p : α → Bool) (l : List α) (c : α)
    (h : (l.filter p).head? = some c) :
    p c = true ∧ ∃ l₁ l₂, l = l₁ ++ c :: l₂ ∧ ∀ x ∈ l₁, p x = false := by
  induction l with
  | nil => simp [List.filter] at h
  | cons a t ih =>
    rw [List.filter_cons] at h
    by_cases hp : p a = true
    · rw [if_pos hp] at h
      simp only [List.head?_cons, Option.some.injEq] at h
      subst h
      exact ⟨hp, [], t, rfl, by simp⟩
    · rw [if_neg hp] at h
      obtain ⟨hc, l₁, l₂, rfl, hall⟩ := ih h
      refine ⟨hc, a :: l₁, l₂, rfl, ?_⟩
      intro x hx
      rcases List.mem_cons.mp hx with rfl | hx
      · exact Bool.eq_false_iff.mpr (fun hxa => hp hxa)
      · exact hall x hx

/-- C8: every well-formed `initialize` request returns the same fixed
capability descriptor (protocol version, capabilities, server identity) and
every `tools/list` request returns the identical static tool catalog, for
every backing store, every configured secret, and every credential carried
by the request — the dispatcher routes both methods before the bearer check. -/
theorem handshake_and_catalog_fixed (db : DB) (secret : Option String)
    (req : McpRequest) :
    (req.method = "initialize" →
      handleMcp db secret req = (.rpcOk req.id initDescriptor, 0)) ∧
    (req.method = "tools/list" →
      handleMcp db secret req = (.rpcOk req.id (.toolsRes toolsCatalog), 0)) := by
  constructor <;> intro h <;> simp [handleMcp, h]

/-- Witness for C8 at concrete requests carrying no credential at all. -/
theorem handshake_and_catalog_fixed_witness :
    handleMcp dbEmpty (some ("k")) ⟨1, ("initialize"), (""), noArgs, none⟩ =
      (.rpcOk 1 initDescriptor, 0) ∧
    handleMcp dbEmpty (some ("k")) ⟨7, ("tools/list"), (""), noArgs, none⟩ =
      (.rpcOk 7 (.toolsRes toolsCatalog), 0) :=
  ⟨(handshake_and_catalog_fixed dbEmpty (some ("k"))
      ⟨1, ("initialize"), (""), noArgs, none⟩).1 rfl,
   (handshake_and_catalog_fixed dbEmpty (some ("k"))
      ⟨7, ("tools/list"), (""), noArgs, none⟩).2 rfl⟩

/-- C4: a `tools/call` request whose credential differs from
`Bearer <secret>` is answered with HTTP 401 and zero backing-store queries,
whatever tool name and arguments it carries — the bearer check precedes any
repository access. -/
theorem unauthorized_call_short_circuits (db : DB) (secret : Option String)
    (req : McpRequest)
    (hm : req.method = "tools/call")
    (ha : req.authorization.getD "" ≠ "Bearer " ++ jsStr secret) :
    handleMcp db secret req = (.httpErr 401 ("Unauthorized"), 0) := by
  simp [handleMcp, hm, ha]

/-- Witness for C4: a wrong bearer token against a populated store. -/
theorem unauthorized_call_short_circuits_witness :
    handleMcp dbPriceOnly (some ("k"))
      ⟨3, ("tools/call"), ("get_course_details"),
        ⟨some ("Integral"), none, none⟩, some ("Bearer wrong")⟩ =
      (.httpErr 401 ("Unauthorized"), 0) :=
  unauthorized_call_short_circuits dbPriceOnly (some ("k"))
    ⟨3, ("tools/call"), ("get_course_details"),
      ⟨some ("Integral"), none, none⟩, some ("Bearer wrong")⟩
    rfl (by decide)

/-- C2: an authorized `get_course_details` call whose keyword matches no
active course is answered with a successful JSON-RPC result carrying the
explanatory not-found fallback text — never an error object and never a
dropped response. -/
theorem details_no_match_success (db : DB) (secret : Option String)
    (req : McpRequest)
    (hm : req.method = "tools/call")
    (ha : req.authorization.getD "" = "Bearer " ++ jsStr secret)
    (ht : req.toolName = "get_course_details")
    (hc : courseLookup db (jsStr req.arguments.keyword) = none) :
    handleMcp db secret req =
      (.rpcOk req.id (.contentRes ("No encontré ese curso activo.")), 1) := by
  simp [handleMcp, hm, ha, dispatchTool, runTool, ht, hc]

/-- Witness for C2: an empty store and a keyword matching nothing. -/
theorem details_no_match_success_witness :
    handleMcp dbEmpty (some ("k"))
      ⟨2, ("tools/call"), ("get_course_details"),
        ⟨some ("Exponencial"), none, none⟩, some ("Bearer k")⟩ =
      (.rpcOk 2 (.contentRes ("No encontré ese curso activo.")), 1) :=
  details_no_match_success dbEmpty (some ("k"))
    ⟨2, ("tools/call"), ("get_course_details"),
      ⟨some ("Exponencial"), none, none⟩, some ("Bearer k")⟩
    rfl rfl rfl (by decide)

/-- C1: when an authorized `get_course_details` call matches an active
course, the response is always a successful result whose text decomposes
into the course row and the three independent lookups (pricing, session,
image URL); in particular, whichever of the three finds no row contributes
exactly its placeholder branch of `detailsText` while the other arguments
are untouched, and when all three are empty the text is `detailsText` with
no pricing row, no session row and the default image URL.  No absence of
pricing, session or media rows can produce anything but a success. -/
theorem details_missing_rows_degrade (db : DB) (secret : Option String)
    (req : McpRequest) (course : Course)
    (hm : req.method = "tools/call")
    (ha : req.authorization.getD "" = "Bearer " ++ jsStr secret)
    (ht : req.toolName = "get_course_details")
    (hc : courseLookup db (jsStr req.arguments.keyword) = some course) :
    handleMcp db secret req =
      (.rpcOk req.id (.contentRes (detailsText course
        (pricingLookup db course.id req.arguments.modality)
        (sessionLookup db course.id req.arguments.modality)
        (imageUrlOf db course.id)
        req.arguments.modality)), 4) ∧
    (pricingLookup db course.id req.arguments.modality = none →
     sessionLookup db course.id req.arguments.modality = none →
     mediaLookup db course.id = none →
     handleMcp db secret req =
       (.rpcOk req.id (.contentRes (detailsText course none none
         ("https://unx.mx") req.arguments.modality)), 4)) := by
  have h1 : handleMcp db secret req =
      (.rpcOk req.id (.contentRes (detailsText course
        (pricingLookup db course.id req.arguments.modality)
        (sessionLookup db course.id req.arguments.modality)
        (imageUrlOf db course.id)
        req.arguments.modality)), 4) := by
    simp [handleMcp, hm, ha, dispatchTool, runTool, ht, hc]
  refine ⟨h1, fun hp hs hmedia => ?_⟩
  rw [h1, hp, hs]
  unfold imageUrlOf
  rw [hmedia]
  rfl

/-- Witness for C1: a matching course with empty pricing, session and media
relations; the response carries all three placeholder branches. -/
theorem details_missing_rows_degrade_witness :
    handleMcp dbCourseOnly (some ("k"))
      ⟨4, ("tools/call"), ("get_course_details"),
        ⟨some ("Integral"), some ("Presencial"), none⟩, some ("Bearer k")⟩ =
      (.rpcOk 4 (.contentRes (detailsText courseIntegral none none
        ("https://unx.mx") (some ("Presencial")))), 4) :=
  (details_missing_rows_degrade dbCourseOnly (some ("k"))
    ⟨4, ("tools/call"), ("get_course_details"),
      ⟨some ("Integral"), some ("Presencial"), none⟩, some ("Bearer k")⟩
    courseIntegral rfl rfl rfl (by decide)).2 (by decide) (by decide) (by decide)

/-- C3: an authorized `recommend_course` call answers successfully in both
degraded cases: when no recommendation row matches the career, the response
is the fixed fallback text naming the default course (Integral); when a row
matches but the secondary name lookup yields no data, the response succeeds
and displays the raw recommended-course identifier. -/
theorem recommend_fallback_success (db : DB) (secret : Option String)
    (req : McpRequest)
    (hm : req.method = "tools/call")
    (ha : req.authorization.getD "" = "Bearer " ++ jsStr secret)
    (ht : req.toolName = "recommend_course") :
    (recMatch db (jsStr req.arguments.career) = none →
      handleMcp db secret req =
        (.rpcOk req.id (.contentRes recFallbackText), 1)) ∧
    (∀ row, recMatch db (jsStr req.arguments.career) = some row →
      singleCourseName db row.recommended_course_id = none →
      handleMcp db secret req =
        (.rpcOk req.id (.contentRes ("Para la carrera de " ++ row.career ++
          ", recomendamos el curso: " ++ row.recommended_course_id ++ ".")), 2)) := by
  constructor
  · intro hrec
    simp [handleMcp, hm, ha, dispatchTool, runTool, ht, hrec]
  · intro row hrec hname
    simp [handleMcp, hm, ha, dispatchTool, runTool, ht, hrec, hname]

/-- Witness for C3: an empty store exercises the no-row fallback; a store
with a recommendation row but no matching course row exercises the raw-id
fallback. -/
theorem recommend_fallback_success_witness :
    handleMcp dbEmpty (some ("k"))
      ⟨5, ("tools/call"), ("recommend_course"),
        ⟨none, none, some ("Medicina")⟩, some ("Bearer k")⟩ =
      (.rpcOk 5 (.contentRes recFallbackText), 1) ∧
    handleMcp dbCareerOnly (some ("k"))
      ⟨6, ("tools/call"), ("recommend_course"),
        ⟨none, none, some ("Medicina")⟩, some ("Bearer k")⟩ =
      (.rpcOk 6 (.contentRes ("Para la carrera de Medicina, recomendamos el curso: c1.")), 2) :=
  ⟨(recommend_fallback_success dbEmpty (some ("k"))
      ⟨5, ("tools/call"), ("recommend_course"),
        ⟨none, none, some ("Medicina")⟩, some ("Bearer k")⟩
      rfl rfl rfl).1 (by decide),
   (recommend_fallback_success dbCareerOnly (some ("k"))
      ⟨6, ("tools/call"), ("recommend_course"),
        ⟨none, none, some ("Medicina")⟩, some ("Bearer k")⟩
      rfl rfl rfl).2 careerMed (by decide) (by decide)⟩

/-- C5 (amended part): every value thrown out of a tool handler on an
authorized `tools/call` is caught at the dispatcher boundary and rewrapped
as a JSON-RPC error object with code -32603 whose message is the thrown
failure text — never a dropped response and never a successful result. -/
theorem thrown_handler_failure_rewrapped (db : DB) (secret : Option String)
    (req : McpRequest) (e : String) (n : Nat)
    (hm : req.method = "tools/call")
    (ha : req.authorization.getD "" = "Bearer " ++ jsStr secret)
    (hr : runTool db req.toolName req.arguments = (.error e, n)) :
    handleMcp db secret req = (.rpcErr req.id (-32603) e, n) := by
  simp [handleMcp, hm, ha, dispatchTool, hr]

/-- Witness for the amended C5: a `courses` connectivity fault inside
`get_active_courses`, the one handler that rethrows its store error. -/
theorem thrown_handler_failure_rewrapped_witness :
    handleMcp dbCoursesFault (some ("k"))
      ⟨8, ("tools/call"), ("get_active_courses"), noArgs, some ("Bearer k")⟩ =
      (.rpcErr 8 (-32603) ("connection reset"), 1) :=
  thrown_handler_failure_rewrapped dbCoursesFault (some ("k"))
    ⟨8, ("tools/call"), ("get_active_courses"), noArgs, some ("Bearer k")⟩
    ("connection reset") 1 rfl rfl rfl

/-- Counterexample to C5 as stated: a repository fault inside
`recommend_course` (a `careers_map` query error) is absorbed by the handler
and reported as a SUCCESSFUL result carrying the fallback text — not as a
JSON-RPC error object with code -32603 or -32000.  So a handler repository
fault can be reported as a successful result. -/
theorem store_fault_reported_as_success_cex :
    handleMcp dbCareersFault (some ("k"))
      ⟨9, ("tools/call"), ("recommend_course"),
        ⟨none, none, some ("Medicina")⟩, some ("Bearer k")⟩ =
      (.rpcOk 9 (.contentRes recFallbackText), 1) := by decide

/-- C7 (amended part): an authorized `tools/call` naming a tool outside the
catalog is answered with HTTP 404 "Method not found"; but a request whose
method is none of the four recognized ones receives NO response at all —
the Express handler falls through without writing anything. -/
theorem unknown_method_unknown_tool_routing (db : DB) (secret : Option String)
    (req : McpRequest) :
    (req.method = "tools/call" →
     req.authorization.getD "" = "Bearer " ++ jsStr secret →
     req.toolName ≠ "recommend_course" →
     req.toolName ≠ "get_active_courses" →
     req.toolName ≠ "get_course_details" →
     handleMcp db secret req = (.httpErr 404 ("Method not found"), 0)) ∧
    (req.method ≠ "initialize" →
     req.method ≠ "notifications/initialized" →
     req.method ≠ "tools/list" →
     req.method ≠ "tools/call" →
     handleMcp db secret req = (.noResponse, 0)) := by
  constructor
  · intro hm ha h1 h2 h3
    simp [handleMcp, hm, ha, dispatchTool, runTool, h1, h2, h3]
  · intro h1 h2 h3 h4
    simp [handleMcp, h1, h2, h3, h4]

/-- Witness for the amended C7: an authorized call to a nonexistent tool
gets 404; a `ping` request gets no response. -/
theorem unknown_method_unknown_tool_routing_witness :
    handleMcp dbEmpty (some ("k"))
      ⟨10, ("tools/call"), ("delete_course"), noArgs, some ("Bearer k")⟩ =
      (.httpErr 404 ("Method not found"), 0) ∧
    handleMcp dbEmpty (some ("k"))
      ⟨11, ("ping"), (""), noArgs, some ("Bearer k")⟩ = (.noResponse, 0) :=
  ⟨(unknown_method_unknown_tool_routing dbEmpty (some ("k"))
      ⟨10, ("tools/call"), ("delete_course"), noArgs, some ("Bearer k")⟩).1
      rfl rfl (by decide) (by decide) (by decide),
   (unknown_method_unknown_tool_routing dbEmpty (some ("k"))
      ⟨11, ("ping"), (""), noArgs, some ("Bearer k")⟩).2
      (by decide) (by decide) (by decide) (by decide)⟩

/-- Counterexample to C7 as stated: a request whose method is `ping` — none
of the four recognized methods — is left entirely unanswered (`noResponse`),
not answered with an HTTP-level not-found; so not every unrecognized-method
request receives a response. -/
theorem unknown_method_goes_unanswered_cex :
    handleMcp dbPriceOnly (some ("k"))
      ⟨12, ("ping"), (""), noArgs, some ("Bearer k")⟩ = (.noResponse, 0) ∧
    McpResponse.noResponse ≠ .httpErr 404 ("Method not found") := by decide

/-- The authorized `tools/call` continuation never produces the 401
unauthorized response: it yields a JSON-RPC result, a JSON-RPC error, or
the unknown-tool 404. -/
theorem dispatchTool_ne_unauthorized (db : DB) (req : McpRequest) :
    dispatchTool db req ≠ (.httpErr 401 ("Unauthorized"), 0) := by
  unfold dispatchTool
  cases hr : runTool db req.toolName req.arguments with
  | mk fst snd =>
    cases fst with
    | error e => simp
    | ok o => cases o with
      | res r => simp
      | unknownTool => simp

/-- C10: on `tools/call`, the request is answered 401 exactly when its
authorization header (defaulting to the empty string) differs, as a string,
from `Bearer ` followed by the JS interpolation of the configured secret;
and since an absent secret interpolates to the literal `undefined`, a
request presenting exactly `Bearer undefined` under an absent secret is
authorized and proceeds to tool dispatch. -/
theorem bearer_auth_exact_equality (db : DB) (secret : Option String)
    (req : McpRequest) (hm : req.method = "tools/call") :
    (handleMcp db secret req = (.httpErr 401 ("Unauthorized"), 0) ↔
      req.authorization.getD "" ≠ "Bearer " ++ jsStr secret) ∧
    (secret = none → req.authorization = some ("Bearer undefined") →
      handleMcp db secret req = dispatchTool db req) := by
  constructor
  · constructor
    · intro h
      by_cases ha : req.authorization.getD "" = "Bearer " ++ jsStr secret
      · exfalso
        have hd : handleMcp db secret req = dispatchTool db req := by
          simp [handleMcp, hm, ha]
        rw [hd] at h
        exact dispatchTool_ne_unauthorized db req h
      · exact ha
    · intro ha
      simp [handleMcp, hm, ha]
  · intro hs hauth
    have ha : req.authorization.getD "" = "Bearer " ++ jsStr secret := by
      rw [hs, hauth]
      rfl
    simp [handleMcp, hm, ha]

/-- Witness for C10: with no secret configured, the literal header
`Bearer undefined` reaches tool dispatch; with a secret configured, an
absent header is refused with 401. -/
theorem bearer_auth_exact_equality_witness :
    handleMcp dbPriceOnly none
      ⟨13, ("tools/call"), ("get_active_courses"), noArgs,
        some ("Bearer undefined")⟩ =
      dispatchTool dbPriceOnly
        ⟨13, ("tools/call"), ("get_active_courses"), noArgs,
          some ("Bearer undefined")⟩ ∧
    handleMcp dbPriceOnly (some ("k"))
      ⟨14, ("tools/call"), ("get_active_courses"), noArgs, none⟩ =
      (.httpErr 401 ("Unauthorized"), 0) :=
  ⟨(bearer_auth_exact_equality dbPriceOnly none
      ⟨13, ("tools/call"), ("get_active_courses"), noArgs,
        some ("Bearer undefined")⟩ rfl).2 rfl rfl,
   ((bearer_auth_exact_equality dbPriceOnly (some ("k"))
      ⟨14, ("tools/call"), ("get_active_courses"), noArgs, none⟩ rfl).1).mpr
      (by decide)⟩

/-- C6 (amended part): in the stateless variant, the course selected by
`get_course_details` always satisfies the case-insensitive keyword match on
its name and the active flag, and is the first row of the relation doing
so — the modality argument plays no part in the selection.  In the
streaming variant, the selected course additionally satisfies the
case-insensitive partial modality match and the `status = 'active'`
filter. -/
theorem course_resolution_filter_properties :
    (∀ (db : DB) (kw : String) (c : Course), courseLookup db kw = some c →
      ilikeContains c.name kw = true ∧ c.active = true ∧
      ∃ l₁ l₂, db.courses = l₁ ++ c :: l₂ ∧
        ∀ c' ∈ l₁, ¬(ilikeContains c'.name kw = true ∧ c'.active = true)) ∧
    (∀ (db : DB) (kw m : String) (c : Course), sseCourseLookup db kw m = some c →
      ilikeContains c.name kw = true ∧ ilikeContains c.modality m = true ∧
      c.status = "active") := by
  constructor
  · intro db kw c h
    unfold courseLookup at h
    by_cases he : db.coursesErr.isSome
    · rw [if_pos he] at h
      simp at h
    · rw [if_neg he] at h
      obtain ⟨hp, l₁, l₂, heq, hall⟩ := head?_filter_decomp _ _ _ h
      rw [Bool.and_eq_true] at hp
      refine ⟨hp.1, hp.2, l₁, l₂, heq, ?_⟩
      intro c' hc' hcontra
      have hfalse := hall c' hc'
      simp only at hfalse
      rw [hcontra.1, hcontra.2] at hfalse
      simp at hfalse
  · intro db kw m c h
    unfold sseCourseLookup at h
    by_cases he : db.coursesErr.isSome
    · rw [if_pos he] at h
      simp at h
    · rw [if_neg he] at h
      have hp := (head?_filter_decomp _ _ _ h).1
      simp only [Bool.and_eq_true, beq_iff_eq, decide_eq_true_eq] at hp
      exact ⟨hp.1.1, hp.1.2, hp.2⟩

/-- Witness for the amended C6: both lookups applied at concrete stores. -/
theorem course_resolution_filter_properties_witness :
    (ilikeContains courseZoom.name ("integral") = true ∧
      courseZoom.active = true) ∧
    (ilikeContains courseIntegral.name ("integral") = true ∧
      ilikeContains courseIntegral.modality ("presencial") = true ∧
      courseIntegral.status = "active") :=
  ⟨⟨((course_resolution_filter_properties).1 dbZoomOnly ("integral")
      courseZoom (by decide)).1,
    ((course_resolution_filter_properties).1 dbZoomOnly ("integral")
      courseZoom (by decide)).2.1⟩,
   (course_resolution_filter_properties).2 dbCourseOnly ("integral")
      ("presencial") courseIntegral (by decide)⟩

/-- Counterexample to C6 as stated: with modality `Presencial` supplied,
the stateless variant still selects the Zoom course — the selected course
fails the modality filter, and the call is served with the Zoom course's
details.  So the selected course need not satisfy all three filters. -/
theorem course_resolution_ignores_modality_cex :
    courseLookup dbZoomOnly ("Integral") = some courseZoom ∧
    ilikeContains courseZoom.modality ("Presencial") = false ∧
    handleMcp dbZoomOnly (some ("k"))
      ⟨15, ("tools/call"), ("get_course_details"),
        ⟨some ("Integral"), some ("Presencial"), none⟩, some ("Bearer k")⟩ =
      (.rpcOk 15 (.contentRes (detailsText courseZoom none none
        ("https://unx.mx") (some ("Presencial")))), 4) := by decide

/-- C9 (amended part): the catalog declares exactly the claimed property
and required lists (`keyword` required for `get_course_details`, `career`
required for `recommend_course`, nothing for `get_active_courses`), and
every argument object — whether or not the declared schema accepts it — is
dispatched to the named handler: the handlers perform no argument
validation, so the schema-accepted sets are contained in, but not equal to,
the handler-accepted sets. -/
theorem schema_acceptance_subset :
    toolsCatalog.map (fun t => (t.name, t.required)) =
      [(("get_active_courses"), ([] : List String)),
       (("get_course_details"), [("keyword")]),
       (("recommend_course"), [("career")])] ∧
    ∀ (db : DB) (t : ToolDef) (a : Args), t ∈ toolsCatalog →
      (runTool db t.name a).1 ≠ .ok .unknownTool := by
  refine ⟨by decide, ?_⟩
  intro db t a ht
  simp only [toolsCatalog, List.mem_cons, List.mem_singleton,
    List.not_mem_nil, or_false] at ht
  rcases ht with rfl | rfl | rfl
  · cases hce : db.coursesErr <;> simp [runTool, hce]
  · cases hcl : courseLookup db (jsStr a.keyword) <;> simp [runTool, hcl]
  · cases hr : recMatch db (jsStr a.career) <;> simp [runTool, hr]

/-- Witness for the amended C9: the `recommend_course` handler processes an
argument object with no keys at all. -/
theorem schema_acceptance_subset_witness :
    (runTool dbEmpty ("recommend_course") noArgs).1 ≠ .ok .unknownTool :=
  (schema_acceptance_subset).2 dbEmpty
    ⟨("recommend_course"), ("Recomienda un curso basado en la carrera o universidad."),
      [("career")], [("career")]⟩ noArgs (by decide)

/-- Counterexample to C9 as stated: the declared schema of
`get_course_details` rejects the empty argument object (`keyword` is
required), yet the handler accepts it — the dispatcher serves the call and
returns a successful result (the missing keyword is interpolated as the
string `undefined`).  The schema-accepted set and the handler-accepted set
therefore differ. -/
theorem schema_acceptance_mismatch_cex :
    schemaAccepts (toolsCatalog.get ⟨1, by decide⟩) noArgs = false ∧
    handleMcp dbEmpty (some ("k"))
      ⟨16, ("tools/call"), ("get_course_details"), noArgs, some ("Bearer k")⟩ =
      (.rpcOk 16 (.contentRes ("No encontré ese curso activo.")), 1) := by decide
